import Mathlib

/-!
Verification of the order-placement / stock-reservation workflow of the
`order_service` Django application (`api/services.py`, `api/repositories.py`,
`api/serializers.py`, `api/models.py`).

The database is modelled as lists of rows; every service runs inside a
`transaction_atomic` wrapper that discards the working state when the body
raises, mirroring Django's `@transaction.atomic` decorator.  Quantities are
`Int` on the `Stock` side (Python integers can go negative before the
`PositiveIntegerField` column would complain) and `Nat` on the line-item side
(`PositiveIntegerField` plus serializer `min_value=1`).
-/

/-- A row of the `Stock` table (`models.Stock`): a product reference and the
available quantity.  The column is a `PositiveIntegerField`, but the Python
attribute can hold any integer before `save`, so the model uses `Int`. -/
structure StockRow where
  product : Nat
  quantity : Int
deriving Repr, DecidableEq

/-- A row of the `Order` table (`models.Order`): primary key, buyer reference
and order date (timestamps abstracted to `Nat`). -/
structure OrderRow where
  id : Nat
  buyer : Nat
  order_date : Nat
deriving Repr, DecidableEq

/-- A row of the `OrderItem` table (`models.OrderItem`). -/
structure OrderItemRow where
  order : Nat
  product : Nat
  quantity : Nat
  purchase_price : Int
deriving Repr, DecidableEq

/-- One validated line item handed to the services: a `{product, quantity,
purchase_price}` dictionary produced by `OrderItemSerializer`. -/
structure ItemData where
  product : Nat
  quantity : Nat
  purchase_price : Int
deriving Repr, DecidableEq

/-- The database state visible to the order workflow. -/
structure DB where
  stocks : List StockRow
  orders : List OrderRow
  orderItems : List OrderItemRow
  nextOrderId : Nat
deriving Repr, DecidableEq

/-- Result of a Django ORM point lookup (`Model.objects.get`). -/
inductive OrmErr where
  | doesNotExist
  | multipleReturned
deriving Repr, DecidableEq

/-- Exceptions escaping the service methods.  `insufficientStock` carries the
product id together with the available and requested quantities computed at
the failure site (services.py logs them as "Доступно: ..., запрошено: ...");
`productMissing` is the `ValueError` re-raised from `ObjectDoesNotExist`;
`fkAssignError` is the `ValueError` Django's ForeignKey descriptor raises when
a non-instance (such as a plain int primary key) is assigned to a relation
field ("Cannot assign ...: Order.buyer must be a User instance");
`typeError` is a Python `TypeError` from a call that does not bind all
required parameters; `notifyFailure` is an exception escaping the
notification enqueue. -/
inductive Err where
  | insufficientStock (product : Nat) (available : Int) (requested : Nat)
  | productMissing (product : Nat)
  | multipleStockRows (product : Nat)
  | fkAssignError
  | typeError
  | notifyFailure
deriving Repr, DecidableEq

/-- Outcome of the Celery `send_email_task.delay(...)` enqueue: it succeeds,
raises a `CeleryError`, or raises some other exception (for instance a broker
`OperationalError`, which is not a `CeleryError` subclass). -/
inductive NotifyOutcome where
  | ok
  | celeryError
  | otherError
deriving Repr, DecidableEq

/-- `stock.save()`: persist the (single) stock row for this product. -/
def stockSave (db : DB) (s : StockRow) : DB :=
  { db with stocks := db.stocks.map (fun r => if r.product == s.product then s else r) }

/-- `instance.save()` on an order: persist the header row. -/
def orderSave (db : DB) (o : OrderRow) : DB :=
  { db with orders := db.orders.map (fun r => if r.id == o.id then o else r) }

/-- `ProductRepository.get_stock_by_product`: `Stock.objects.get(product=product)`.
A plain point lookup — repositories.py does not use `select_for_update`, so no
row lock is taken.  Raises `DoesNotExist` when no row matches and
`MultipleObjectsReturned` when several do. -/
def ProductRepository.get_stock_by_product (db : DB) (product : Nat) :
    Except OrmErr StockRow :=
  match db.stocks.filter (fun s => s.product == product) with
  | [s] => .ok s
  | [] => .error .doesNotExist
  | _ => .error .multipleReturned

/-- `ProductRepository.update_stock`: `stock.quantity -= quantity; stock.save()`.
The subtraction is unconditional — there is no check that the result stays
non-negative. -/
def ProductRepository.update_stock (db : DB) (stock : StockRow) (quantity : Int) :
    DB × StockRow :=
  let s := { stock with quantity := stock.quantity - quantity }
  (stockSave db s, s)

/-- A value assigned to the `buyer` ForeignKey of `Order`.  Django's relation
descriptor accepts a `User` instance and raises `ValueError` in
`Model.__init__` — before anything touches the database — when given anything
else, such as the plain integer primary key. -/
inductive BuyerVal where
  | userInstance (id : Nat)
  | intId (id : Nat)
deriving Repr, DecidableEq

/-- `OrderRepository.create_order`: `Order.objects.create(**validated_data)`
with `validated_data = {buyer, order_date}`.  The header row is created only
when the buyer value is a `User` instance; an int id makes the model
constructor raise the FK-assignment `ValueError` before any write. -/
def OrderRepository.create_order (db : DB) (buyer : BuyerVal) (order_date : Nat) :
    Except Err (DB × OrderRow) :=
  match buyer with
  | .userInstance uid =>
    let o : OrderRow := ⟨db.nextOrderId, uid, order_date⟩
    .ok ({ db with orders := db.orders ++ [o], nextOrderId := db.nextOrderId + 1 }, o)
  | .intId _ => .error .fkAssignError

/-- `OrderRepository.create_order_items`: one `bulk_create` of an `OrderItem`
per line item, all attached to `order`. -/
def OrderRepository.create_order_items (db : DB) (order : OrderRow)
    (items : List ItemData) : DB :=
  { db with
    orderItems := db.orderItems ++
      items.map (fun it => ⟨order.id, it.product, it.quantity, it.purchase_price⟩) }

/-- Django's `@transaction.atomic`: run the body on the current state; if it
raises, roll the database back to the state at entry. -/
def transaction_atomic (body : DB → (Except Err α) × DB) (db : DB) :
    (Except Err α) × DB :=
  match body db with
  | (.ok a, db') => (.ok a, db')
  | (.error e, _) => (.error e, db)

/-- The per-item loop of `OrderService.create_order` (services.py lines
36-53): fetch the stock row, compare `stock.quantity < item_data['quantity']`,
raise `ValueError` on shortfall or missing row, otherwise
`update_stock(stock, item_data['quantity'])` and continue. -/
def create_order_loop (db : DB) (items : List ItemData) : (Except Err Unit) × DB :=
  match items with
  | [] => (.ok (), db)
  | item :: rest =>
    match ProductRepository.get_stock_by_product db item.product with
    | .error .doesNotExist => (.error (.productMissing item.product), db)
    | .error .multipleReturned => (.error (.multipleStockRows item.product), db)
    | .ok stock =>
      if stock.quantity < (item.quantity : Int) then
        (.error (.insufficientStock item.product stock.quantity item.quantity), db)
      else
        create_order_loop (ProductRepository.update_stock db stock (item.quantity : Int)).1 rest

/-- The transactional body of `OrderService.create_order` before the
notification step.  Services.py line 33 overwrites the validated buyer with
`user.id` — a plain int — so the header creation at line 34 raises the
FK-assignment `ValueError` on every call, and the stock loop and bulk-create
below it, translated here from the remainder of the method, are never
reached. -/
def OrderService.create_order_body (db : DB) (user : Nat) (order_date : Nat)
    (items : List ItemData) : (Except Err OrderRow) × DB :=
  match OrderRepository.create_order db (BuyerVal.intId user) order_date with
  | .error e => (.error e, db)
  | .ok (db1, order) =>
    match create_order_loop db1 items with
    | (.error e, db2) => (.error e, db2)
    | (.ok _, db2) => (.ok order, OrderRepository.create_order_items db2 order items)

/-- The `try/except Exception` around the notification enqueue in
`create_order` (services.py lines 57-69): every enqueue failure is caught and
logged, so the order is returned whatever happens. -/
def create_order_notify (order : OrderRow) (notify : NotifyOutcome) :
    Except Err OrderRow :=
  match notify with
  | .ok => .ok order
  | .celeryError => .ok order
  | .otherError => .ok order

/-- `OrderService.create_order`: the `@transaction.atomic` method. -/
def OrderService.create_order (db : DB) (user : Nat) (order_date : Nat)
    (items : List ItemData) (notify : NotifyOutcome) : (Except Err OrderRow) × DB :=
  transaction_atomic (fun db0 =>
    match OrderService.create_order_body db0 user order_date items with
    | (.error e, db') => (.error e, db')
    | (.ok order, db') => (create_order_notify order notify, db')) db

/-- Python truthiness of `items_data` in `update_order` (`if items_data:`):
`None` and the empty list are both falsy. -/
def itemsTruthy : Option (List ItemData) → Bool
  | none => false
  | some [] => false
  | some (_ :: _) => true

/-- The restock loop of `update_order` (services.py lines 103-113): for each
old item, fetch its stock and add the old quantity back
(`stock.quantity += old_item.quantity; stock.save()`).  `ObjectDoesNotExist`
is caught, logged and skipped (`continue`). -/
def restock_loop (db : DB) (olds : List OrderItemRow) : (Except Err Unit) × DB :=
  match olds with
  | [] => (.ok (), db)
  | old :: rest =>
    match ProductRepository.get_stock_by_product db old.product with
    | .error .doesNotExist => restock_loop db rest
    | .error .multipleReturned => (.error (.multipleStockRows old.product), db)
    | .ok stock =>
      restock_loop (stockSave db { stock with quantity := stock.quantity + (old.quantity : Int) }) rest

/-- `next((i.quantity for i in old_items if i.product.id == ...), 0)`:
quantity of the first old item for this product, defaulting to 0. -/
def old_quantity_for (olds : List OrderItemRow) (product : Nat) : Nat :=
  match olds.find? (fun i => i.product == product) with
  | some i => i.quantity
  | none => 0

/-- The new-items loop of `update_order` (services.py lines 116-139):
`delta = item_data['quantity'] - old_quantity`; raise `ValueError` when
`delta > 0 and stock.quantity < delta`; otherwise
`update_stock(stock, delta)`. -/
def update_items_loop (db : DB) (olds : List OrderItemRow) (items : List ItemData) :
    (Except Err Unit) × DB :=
  match items with
  | [] => (.ok (), db)
  | item :: rest =>
    match ProductRepository.get_stock_by_product db item.product with
    | .error .doesNotExist => (.error (.productMissing item.product), db)
    | .error .multipleReturned => (.error (.multipleStockRows item.product), db)
    | .ok stock =>
      let old_quantity := old_quantity_for olds item.product
      let delta : Int := (item.quantity : Int) - (old_quantity : Int)
      if 0 < delta ∧ stock.quantity < delta then
        (.error (.insufficientStock item.product stock.quantity item.quantity), db)
      else
        update_items_loop (ProductRepository.update_stock db stock delta).1 olds rest

/-- The `try/except CeleryError` around the notification enqueue in
`update_order` (services.py lines 144-155): only `CeleryError` is caught; any
other exception propagates out of the (still open) transaction. -/
def update_order_notify (order : OrderRow) (notify : NotifyOutcome) :
    Except Err OrderRow :=
  match notify with
  | .ok => .ok order
  | .celeryError => .ok order
  | .otherError => .error .notifyFailure

/-- The validated data handed to `update_order`: optional header fields and an
optional replacement item list. -/
structure UpdData where
  buyer : Option Nat
  order_date : Option Nat
  items : Option (List ItemData)
deriving Repr, DecidableEq

/-- The item-replacement phase of `update_order` run when the supplied item
list is truthy: restock the captured old items, run the delta loop for the new
items, bulk-create them, then enqueue the notification. -/
def update_order_items_phase (db : DB) (inst1 : OrderRow) (olds : List OrderItemRow)
    (items : List ItemData) (notify : NotifyOutcome) : (Except Err OrderRow) × DB :=
  match restock_loop db olds with
  | (.error e, db3) => (.error e, db3)
  | (.ok _, db3) =>
    match update_items_loop db3 olds items with
    | (.error e, db4) => (.error e, db4)
    | (.ok _, db4) =>
      (update_order_notify inst1 notify, OrderRepository.create_order_items db4 inst1 items)

/-- The transactional body of `OrderService.update_order` (services.py lines
74-157): update the header unconditionally; when the supplied item list is
truthy, capture the old items, delete them and run the item-replacement
phase; finally enqueue the notification. -/
def OrderService.update_order_body (db : DB) (inst : OrderRow) (upd : UpdData)
    (notify : NotifyOutcome) : (Except Err OrderRow) × DB :=
  let inst1 : OrderRow :=
    { inst with
      buyer := upd.buyer.getD inst.buyer
      order_date := upd.order_date.getD inst.order_date }
  let db1 := orderSave db inst1
  if itemsTruthy upd.items then
    let items := upd.items.getD []
    let old_items := db1.orderItems.filter (fun i => i.order == inst1.id)
    let db2 := { db1 with orderItems := db1.orderItems.filter (fun i => !(i.order == inst1.id)) }
    update_order_items_phase db2 inst1 old_items items notify
  else
    (update_order_notify inst1 notify, db1)

/-- `OrderService.update_order`: the `@transaction.atomic` method. -/
def OrderService.update_order (db : DB) (inst : OrderRow) (upd : UpdData)
    (notify : NotifyOutcome) : (Except Err OrderRow) × DB :=
  transaction_atomic (fun db0 => OrderService.update_order_body db0 inst upd notify) db

/-- Required parameters of `OrderService.create_order` as declared in
services.py: `def create_order(validated_data, user)`, no defaults. -/
def create_order_required_params : List String := ["validated_data", "user"]

/-- Number of arguments passed at the call site
`OrderService.create_order(validated_data)` inside `OrderSerializer.create`
(serializers.py line 254). -/
def orderSerializer_create_arg_count : Nat := 1

/-- A Python call to a function whose parameters all lack defaults binds
exactly when the argument count matches the parameter count; otherwise the
call raises `TypeError`. -/
def call_binds (required : List String) (argCount : Nat) : Bool :=
  argCount == required.length

/-- The pre-check loop of `reorder_order` (services.py lines 181-204): for
each item of the original order, fetch its stock, fail on shortfall or missing
row, and collect `{product, quantity, purchase_price}` mirroring the item. -/
def reorder_precheck (db : DB) (items : List OrderItemRow) :
    Except Err (List ItemData) :=
  match items with
  | [] => .ok []
  | item :: rest =>
    match ProductRepository.get_stock_by_product db item.product with
    | .error .doesNotExist => .error (.productMissing item.product)
    | .error .multipleReturned => .error (.multipleStockRows item.product)
    | .ok stock =>
      if stock.quantity < (item.quantity : Int) then
        .error (.insufficientStock item.product stock.quantity item.quantity)
      else
        match reorder_precheck db rest with
        | .error e => .error e
        | .ok tl => .ok (⟨item.product, item.quantity, item.purchase_price⟩ :: tl)

/-- `OrderService.reorder_order` (services.py lines 159-215): pre-check every
original item against current stock, then delegate through
`OrderSerializer(data=order_data).save()`, whose `create` method invokes
`OrderService.create_order(validated_data)`.  That call supplies one argument
to a function with two required parameters, so when it is reached it cannot
bind and raises `TypeError`; the guarded branch below spells out the intended
delegation that would run if the call did bind. -/
def OrderService.reorder_order (db : DB) (original : OrderRow) (request_user : Nat)
    (order_date : Nat) (notify : NotifyOutcome) : (Except Err OrderRow) × DB :=
  transaction_atomic (fun db0 =>
    let orig_items := db0.orderItems.filter (fun i => i.order == original.id)
    match reorder_precheck db0 orig_items with
    | .error e => (.error e, db0)
    | .ok items =>
      if call_binds create_order_required_params orderSerializer_create_arg_count then
        OrderService.create_order db0 request_user order_date items notify
      else
        (.error .typeError, db0)) db

/-- Quantity column of the stock row for product `p`, when there is one. -/
def stockQty (db : DB) (p : Nat) : Option Int :=
  (db.stocks.find? (fun s => s.product == p)).map (·.quantity)

instance [DecidableEq ε] [DecidableEq α] : DecidableEq (Except ε α) := fun x y =>
  match x, y with
  | .ok a, .ok b =>
    if h : a = b then .isTrue (by rw [h]) else .isFalse (by simp [h])
  | .error a, .error b =>
    if h : a = b then .isTrue (by rw [h]) else .isFalse (by simp [h])
  | .ok _, .error _ => .isFalse (by simp)
  | .error _, .ok _ => .isFalse (by simp)

/-- The spec invariant on the `Stock` table: every quantity is non-negative. -/
def NonNegStocks (db : DB) : Prop := ∀ s ∈ db.stocks, 0 ≤ s.quantity

/-- Well-formed stock table: at most one row per product (the spec's
one-to-one `Product`/`Stock` relation). -/
def WFStocks (db : DB) : Prop :=
  db.stocks.Pairwise (fun a b => a.product ≠ b.product)

instance (db : DB) : Decidable (NonNegStocks db) :=
  inferInstanceAs (Decidable (∀ s ∈ db.stocks, 0 ≤ s.quantity))

instance (db : DB) : Decidable (WFStocks db) := by
  unfold WFStocks
  infer_instance

/-! ## Locking and repeated create_order attempts

The spec's no-oversell property talks about concurrent `create_order` calls.
Two facts about the source settle it.  First, `get_stock_by_product` is a
plain `Stock.objects.get` with no `select_for_update` (nothing in the
repository uses one), so no exclusive row lock exists that could serialize
anything.  Second, every `create_order` call raises the FK-assignment
`ValueError` while constructing the `Order` header in Python — before the
transaction reads any `Stock` row and before it performs any write — so a
`create_order` transaction never commits a reservation at all.  Because such
a transaction touches nothing, interleaving several of them concurrently is
indistinguishable from running them one after another, which `run_creates`
does. -/

/-- Whether `get_stock_by_product` locks the row it reads: repositories.py
line 36 is a plain `Stock.objects.get(product=product)`, not a
`select_for_update` query, so it does not. -/
def get_stock_acquires_row_lock : Bool := false

/-- A sequence of `create_order` attempts — each a
`(user, order_date, items, notify)` tuple — run against the database, every
call starting from the committed state the previous one left behind. -/
def run_creates (db : DB) : List (Nat × Nat × List ItemData × NotifyOutcome) → DB
  | [] => db
  | c :: rest => run_creates (OrderService.create_order db c.1 c.2.1 c.2.2.1 c.2.2.2).2 rest

example : (ProductRepository.update_stock ⟨[⟨1, 10⟩], [], [], 1⟩ ⟨1, 10⟩ 4).2.quantity = 6 := by
  decide

example :
    (OrderService.create_order ⟨[⟨1, 10⟩], [], [], 1⟩ 7 0 [⟨1, 4, 100⟩] .ok).1 =
      .error .fkAssignError := by
  decide

/-! ## Basic lemmas about the stock table -/

theorem stocks_filter_eq_find (l : List StockRow) (p : Nat)
    (hwf : l.Pairwise (fun a b => a.product ≠ b.product)) :
    l.filter (fun s => s.product == p) =
      match l.find? (fun s => s.product == p) with
      | some s => [s]
      | none => [] := by
  induction l with
  | nil => simp
  | cons s t ih =>
    rcases List.pairwise_cons.mp hwf with ⟨hs, ht⟩
    by_cases hp : s.product = p
    · have hfil : t.filter (fun x => x.product == p) = [] := by
        rw [List.filter_eq_nil_iff]
        intro a ha
        simp only [beq_iff_eq]
        intro hc
        exact hs a ha (by rw [hp, hc])
      simp [List.filter_cons, List.find?_cons, hp, hfil]
    · have hb : (s.product == p) = false := by simp [hp]
      simp only [List.filter_cons, List.find?_cons, hb]
      simpa using ih ht

theorem get_stock_by_product_eq_find (db : DB) (p : Nat) (hwf : WFStocks db) :
    ProductRepository.get_stock_by_product db p =
      match db.stocks.find? (fun s => s.product == p) with
      | some s => .ok s
      | none => .error .doesNotExist := by
  unfold ProductRepository.get_stock_by_product
  rw [stocks_filter_eq_find db.stocks p hwf]
  cases db.stocks.find? (fun s => s.product == p) <;> rfl

theorem get_stock_ok_mem {db : DB} {p : Nat} {s : StockRow}
    (h : ProductRepository.get_stock_by_product db p = .ok s) :
    s ∈ db.stocks ∧ s.product = p := by
  unfold ProductRepository.get_stock_by_product at h
  rcases hf : db.stocks.filter (fun x => x.product == p) with _ | ⟨a, _ | ⟨b, t⟩⟩ <;>
    rw [hf] at h
  · exact absurd h (by simp)
  · have ha : a = s := by
      have : Except.ok (ε := OrmErr) a = Except.ok s := h
      exact Except.ok.inj this
    subst ha
    have hmem : a ∈ db.stocks.filter (fun x => x.product == p) := by
      rw [hf]; exact List.mem_cons_self a []
    refine ⟨List.mem_of_mem_filter hmem, ?_⟩
    have := List.of_mem_filter hmem
    simpa using this
  · exact absurd h (by simp)

theorem stockSave_products (db : DB) (s : StockRow) :
    (stockSave db s).stocks.map (·.product) = db.stocks.map (·.product) := by
  show (db.stocks.map (fun r => if r.product == s.product then s else r)).map (·.product) = _
  rw [List.map_map]
  apply List.map_congr_left
  intro r _
  by_cases h : r.product = s.product <;> simp [Function.comp, h]

theorem WFStocks_of_products_eq {db db' : DB}
    (h : db'.stocks.map (·.product) = db.stocks.map (·.product)) (hwf : WFStocks db) :
    WFStocks db' := by
  unfold WFStocks at *
  have h1 : (db.stocks.map (·.product)).Pairwise (· ≠ ·) := List.pairwise_map.mpr hwf
  have h2 : (db'.stocks.map (·.product)).Pairwise (· ≠ ·) := h ▸ h1
  exact List.pairwise_map.mp h2

theorem WFStocks_stockSave {db : DB} (s : StockRow) (hwf : WFStocks db) :
    WFStocks (stockSave db s) :=
  WFStocks_of_products_eq (stockSave_products db s) hwf

theorem NonNegStocks_stockSave {db : DB} {s : StockRow}
    (hdb : NonNegStocks db) (hs : 0 ≤ s.quantity) : NonNegStocks (stockSave db s) := by
  intro r hr
  have hr' : r ∈ db.stocks.map (fun r0 => if r0.product == s.product then s else r0) := hr
  rw [List.mem_map] at hr'
  obtain ⟨r0, hr0, hfr⟩ := hr'
  by_cases h : r0.product = s.product
  · have : r = s := by rw [← hfr]; simp [h]
    rw [this]; exact hs
  · have : r = r0 := by rw [← hfr]; simp [h]
    rw [this]; exact hdb r0 hr0

/-! ## Lemmas about the create_order stock loop -/

theorem create_order_loop_nonneg (items : List ItemData) : ∀ db : DB,
    NonNegStocks db → NonNegStocks (create_order_loop db items).2 := by
  induction items with
  | nil => intro db h; exact h
  | cons i rest ih =>
    intro db hdb
    unfold create_order_loop
    cases hg : ProductRepository.get_stock_by_product db i.product with
    | error e => cases e <;> simpa using hdb
    | ok stock =>
      by_cases hlt : stock.quantity < (i.quantity : Int)
      · simpa [hlt] using hdb
      · simp only [hlt, if_false]
        apply ih
        obtain ⟨hmem, -⟩ := get_stock_ok_mem hg
        have h0 : (0 : Int) ≤ stock.quantity - (i.quantity : Int) := by
          have := hdb stock hmem
          omega
        exact NonNegStocks_stockSave hdb h0

/-! ## Lemmas about the update_order loops -/

theorem restock_loop_nonneg (olds : List OrderItemRow) : ∀ db : DB,
    NonNegStocks db → NonNegStocks (restock_loop db olds).2 := by
  induction olds with
  | nil => intro db h; exact h
  | cons old rest ih =>
    intro db hdb
    unfold restock_loop
    cases hg : ProductRepository.get_stock_by_product db old.product with
    | error e =>
      cases e
      · exact ih db hdb
      · simpa using hdb
    | ok stock =>
      apply ih
      obtain ⟨hmem, -⟩ := get_stock_ok_mem hg
      have h0 : (0 : Int) ≤ stock.quantity + (old.quantity : Int) := by
        have := hdb stock hmem
        omega
      exact NonNegStocks_stockSave hdb h0

theorem restock_loop_ok (olds : List OrderItemRow) : ∀ db : DB, WFStocks db →
    (restock_loop db olds).1 = .ok () ∧ WFStocks (restock_loop db olds).2 := by
  induction olds with
  | nil => intro db hwf; exact ⟨rfl, hwf⟩
  | cons old rest ih =>
    intro db hwf
    unfold restock_loop
    cases hg : ProductRepository.get_stock_by_product db old.product with
    | error e =>
      cases e
      · exact ih db hwf
      · -- `multipleReturned` cannot occur on a well-formed stock table
        exfalso
        have hgf := get_stock_by_product_eq_find db old.product hwf
        rw [hg] at hgf
        split at hgf <;> simp at hgf
    | ok stock =>
      exact ih _ (WFStocks_stockSave _ hwf)

theorem restock_loop_frame (olds : List OrderItemRow) : ∀ db : DB,
    (restock_loop db olds).2.orders = db.orders ∧
    (restock_loop db olds).2.orderItems = db.orderItems ∧
    (restock_loop db olds).2.nextOrderId = db.nextOrderId := by
  induction olds with
  | nil => intro db; exact ⟨rfl, rfl, rfl⟩
  | cons old rest ih =>
    intro db
    unfold restock_loop
    cases hg : ProductRepository.get_stock_by_product db old.product with
    | error e =>
      cases e
      · exact ih db
      · exact ⟨rfl, rfl, rfl⟩
    | ok stock =>
      exact ih _

theorem update_items_loop_nonneg (items : List ItemData) (olds : List OrderItemRow) :
    ∀ db : DB, NonNegStocks db → NonNegStocks (update_items_loop db olds items).2 := by
  induction items with
  | nil => intro db h; exact h
  | cons i rest ih =>
    intro db hdb
    unfold update_items_loop
    cases hg : ProductRepository.get_stock_by_product db i.product with
    | error e => cases e <;> simpa using hdb
    | ok stock =>
      by_cases hins : 0 < (i.quantity : Int) - (old_quantity_for olds i.product : Int) ∧
          stock.quantity < (i.quantity : Int) - (old_quantity_for olds i.product : Int)
      · simpa [hins] using hdb
      · simp only [hins, if_false]
        apply ih
        obtain ⟨hmem, -⟩ := get_stock_ok_mem hg
        have h0 : (0 : Int) ≤ stock.quantity -
            ((i.quantity : Int) - (old_quantity_for olds i.product : Int)) := by
          have := hdb stock hmem
          omega
        exact NonNegStocks_stockSave hdb h0

/-! ## Body-level lemmas -/

theorem create_order_notify_eq (o : OrderRow) (n : NotifyOutcome) :
    create_order_notify o n = .ok o := by
  cases n <;> rfl

theorem update_order_items_phase_nonneg (db : DB) (inst1 : OrderRow)
    (olds : List OrderItemRow) (items : List ItemData) (n : NotifyOutcome)
    (hdb : NonNegStocks db) :
    NonNegStocks (update_order_items_phase db inst1 olds items n).2 := by
  have hres := restock_loop_nonneg olds db hdb
  unfold update_order_items_phase
  split
  · next e db3 heq =>
    rw [heq] at hres
    exact hres
  · next u db3 heq =>
    rw [heq] at hres
    have hupd := update_items_loop_nonneg items olds db3 hres
    split
    · next e db4 heq2 =>
      rw [heq2] at hupd
      exact hupd
    · next u2 db4 heq2 =>
      rw [heq2] at hupd
      exact hupd

theorem update_order_body_nonneg (db : DB) (inst : OrderRow) (upd : UpdData)
    (n : NotifyOutcome) (hdb : NonNegStocks db) :
    NonNegStocks (OrderService.update_order_body db inst upd n).2 := by
  unfold OrderService.update_order_body
  by_cases ht : itemsTruthy upd.items
  · simp only [ht, if_true]
    apply update_order_items_phase_nonneg
    exact hdb
  · simp only [ht, if_false]
    cases n <;> exact hdb

theorem update_order_items_phase_notify (db : DB) (inst1 : OrderRow)
    (olds : List OrderItemRow) (items : List ItemData) (n : NotifyOutcome) :
    update_order_items_phase db inst1 olds items n =
      match update_order_items_phase db inst1 olds items .ok with
      | (.ok o, db') => (update_order_notify o n, db')
      | (.error e, db') => (.error e, db') := by
  unfold update_order_items_phase
  split
  · rfl
  · split
    · rfl
    · cases n <;> rfl

theorem update_order_body_notify (db : DB) (inst : OrderRow) (upd : UpdData)
    (n : NotifyOutcome) :
    OrderService.update_order_body db inst upd n =
      match OrderService.update_order_body db inst upd .ok with
      | (.ok o, db') => (update_order_notify o n, db')
      | (.error e, db') => (.error e, db') := by
  unfold OrderService.update_order_body
  by_cases ht : itemsTruthy upd.items
  · simp only [ht, if_true]
    exact update_order_items_phase_notify ..
  · simp only [ht, if_false]
    cases n <;> rfl

theorem create_order_eval (db : DB) (u d : Nat) (items : List ItemData)
    (n : NotifyOutcome) :
    OrderService.create_order db u d items n =
      match OrderService.create_order_body db u d items with
      | (.ok order, db') => (.ok order, db')
      | (.error e, _) => (.error e, db) := by
  rcases hb : OrderService.create_order_body db u d items with ⟨res, db'⟩
  simp only [OrderService.create_order, transaction_atomic]
  rw [hb]
  cases res with
  | error e => rfl
  | ok order =>
    dsimp only
    rw [create_order_notify_eq]

theorem create_order_body_fk (db : DB) (u d : Nat) (items : List ItemData) :
    OrderService.create_order_body db u d items = (.error .fkAssignError, db) := rfl

theorem create_order_fk (db : DB) (u d : Nat) (items : List ItemData)
    (n : NotifyOutcome) :
    OrderService.create_order db u d items n = (.error .fkAssignError, db) := by
  rw [create_order_eval, create_order_body_fk]

theorem update_order_eval (db : DB) (inst : OrderRow) (upd : UpdData)
    (n : NotifyOutcome) :
    OrderService.update_order db inst upd n =
      match OrderService.update_order_body db inst upd n with
      | (.ok order, db') => (.ok order, db')
      | (.error e, _) => (.error e, db) := by
  rcases hb : OrderService.update_order_body db inst upd n with ⟨res, db'⟩
  simp only [OrderService.update_order, transaction_atomic]
  rw [hb]
  cases res <;> rfl

theorem reorder_order_eval (db : DB) (original : OrderRow) (ru rd : Nat)
    (n : NotifyOutcome) :
    OrderService.reorder_order db original ru rd n =
      match reorder_precheck db (db.orderItems.filter (fun i => i.order == original.id)) with
      | .error e => (.error e, db)
      | .ok _ => (.error .typeError, db) := by
  rcases hp : reorder_precheck db (db.orderItems.filter (fun i => i.order == original.id))
    with e | its
  · simp only [OrderService.reorder_order, transaction_atomic]
    rw [hp]
  · simp only [OrderService.reorder_order, transaction_atomic]
    rw [hp]
    have hcb : call_binds create_order_required_params orderSerializer_create_arg_count = false := rfl
    rw [hcb]
    rfl

/-! ## Scenario databases -/

/-- Stock(P1)=10, no orders yet. -/
def dbScenario3 : DB := ⟨[⟨1, 10⟩], [], [], 1⟩

/-- Order 1 holds (P1, qty 5); Stock(P1)=10. -/
def dbScenario1 : DB := ⟨[⟨1, 10⟩], [⟨1, 7, 0⟩], [⟨1, 1, 5, 100⟩], 2⟩

/-- Order 1 holds (P1,2),(P2,1); Stock(P1)=5, Stock(P2)=5. -/
def dbScenario5 : DB := ⟨[⟨1, 5⟩, ⟨2, 5⟩], [⟨1, 7, 0⟩], [⟨1, 1, 2, 100⟩, ⟨1, 2, 1, 200⟩], 2⟩

/-- Stock(P1)=5, Stock(P2)=0, Stock(P3)=5, no orders: the three-item
atomicity scenario in which item 2 is short. -/
def dbScenario2 : DB := ⟨[⟨1, 5⟩, ⟨2, 0⟩, ⟨3, 5⟩], [], [], 1⟩

/-- Order 1 holds (P1, qty 2) but P1 has no Stock row; Stock(P2)=5. -/
def dbScenario8 : DB := ⟨[⟨2, 5⟩], [⟨1, 7, 0⟩], [⟨1, 1, 2, 100⟩], 2⟩

/-! ## Claim theorems -/

/-- Claim C1 (code bug): updating order 1 — previously the single item
(P1, qty 5) with Stock(P1)=10 — to the line items [(P1, qty 3)] must net out
at 10 + 5 - 3 = 12, but `update_order` first restores the old 5 units
(stock 15) and then still applies the per-product delta
`update_stock(stock, 3 - 5)`, i.e. subtracts -2, so the committed update
leaves Stock(P1) at 17, not 12: the reversal and the delta double-count the
old reservation. -/
theorem update_order_net_delta_bug :
    (OrderService.update_order dbScenario1 ⟨1, 7, 0⟩ ⟨none, none, some [⟨1, 3, 100⟩]⟩ .ok).1 =
      .ok ⟨1, 7, 0⟩ ∧
    stockQty (OrderService.update_order dbScenario1 ⟨1, 7, 0⟩
      ⟨none, none, some [⟨1, 3, 100⟩]⟩ .ok).2 1 = some 17 ∧
    stockQty (OrderService.update_order dbScenario1 ⟨1, 7, 0⟩
      ⟨none, none, some [⟨1, 3, 100⟩]⟩ .ok).2 1 ≠ some 12 := by
  decide

/-- Claim C2 (code bug): the claim presumes that a `create_order` call with
an insufficient item fails with InsufficientStock after validating the
earlier items.  No call gets that far: services.py line 33 stores `user.id` —
a plain int — in the buyer field, so `Order.objects.create` raises the
FK-assignment `ValueError` in `Model.__init__`, before the stock loop runs
and before anything is written.  At the three-item scenario (item 2 short:
available 0, requested 3) the call fails with that error instead of
InsufficientStock, and for every input the database is returned unchanged, so
the no-partial-state half of the claim holds only vacuously of the header
error. -/
theorem create_order_fails_before_stock_check :
    OrderService.create_order dbScenario2 7 0
        [⟨1, 1, 10⟩, ⟨2, 3, 10⟩, ⟨3, 1, 10⟩] .ok =
      (.error .fkAssignError, dbScenario2) ∧
    (∀ (db : DB) (u d : Nat) (items : List ItemData) (n : NotifyOutcome),
      OrderService.create_order db u d items n = (.error .fkAssignError, db)) ∧
    (∀ (db : DB) (u d : Nat) (items : List ItemData) (n : NotifyOutcome)
        (p : Nat) (a : Int) (r : Nat) (db' : DB),
      OrderService.create_order db u d items n ≠
        (.error (.insufficientStock p a r), db')) := by
  refine ⟨by decide, ?_, ?_⟩
  · intro db u d items n
    exact create_order_fk db u d items n
  · intro db u d items n p a r db' hc
    rw [create_order_fk] at hc
    exact absurd (congrArg Prod.fst hc) (by simp)

/-- Claim C3 (code bug): the scenario's success leg cannot occur.  With
Stock(P1)=10, `create_order` for [(P1,4)] does not succeed with Stock(P1)=6
and one OrderItem row: the buyer field receives the int `user.id`
(services.py line 33), so the header creation raises the FK-assignment
`ValueError` before any stock row is read, and the committed state still has
Stock(P1)=10 with no order row and no OrderItem row; the claimed follow-up
order on the decremented stock is likewise never reached. -/
theorem create_order_scenario_unreachable :
    OrderService.create_order dbScenario3 7 0 [⟨1, 4, 100⟩] .ok =
      (.error .fkAssignError, dbScenario3) ∧
    stockQty (OrderService.create_order dbScenario3 7 0 [⟨1, 4, 100⟩] .ok).2 1 =
      some 10 ∧
    (OrderService.create_order dbScenario3 7 0 [⟨1, 4, 100⟩] .ok).2.orders = [] ∧
    (OrderService.create_order dbScenario3 7 0 [⟨1, 4, 100⟩] .ok).2.orderItems = [] ∧
    (OrderService.create_order dbScenario3 7 0 [⟨1, 4, 100⟩] .ok).1 ≠
      .ok ⟨1, 7, 0⟩ := by
  decide

/-- Claim C4 (counterexample): `update_stock` happily lets a delta drive the
quantity negative: on Stock(P1)=0, applying a reservation of 1 persists
quantity -1 instead of failing with InvalidArgument. -/
theorem update_stock_negative_no_failure :
    (ProductRepository.update_stock ⟨[⟨1, 0⟩], [], [], 1⟩ ⟨1, 0⟩ 1).2.quantity = -1 ∧
    stockQty (ProductRepository.update_stock ⟨[⟨1, 0⟩], [], [], 1⟩ ⟨1, 0⟩ 1).1 1 =
      some (-1) := by
  decide

/-- Claim C4 (amended): `update_stock` performs no negativity check — it
unconditionally persists `quantity - delta` and cannot fail — and the
non-negativity of stock is guaranteed instead by the guards its callers run
before invoking it: every service loop maps a non-negative stock table to a
non-negative stock table. -/
theorem update_stock_unchecked_callers_guard :
    (∀ (db : DB) (s : StockRow) (q : Int),
      (ProductRepository.update_stock db s q).2.quantity = s.quantity - q ∧
      (ProductRepository.update_stock db s q).1 =
        stockSave db { s with quantity := s.quantity - q }) ∧
    (∀ (db : DB) (items : List ItemData), NonNegStocks db →
      NonNegStocks (create_order_loop db items).2) ∧
    (∀ (db : DB) (olds : List OrderItemRow), NonNegStocks db →
      NonNegStocks (restock_loop db olds).2) ∧
    (∀ (db : DB) (olds : List OrderItemRow) (items : List ItemData), NonNegStocks db →
      NonNegStocks (update_items_loop db olds items).2) := by
  refine ⟨fun db s q => ⟨rfl, rfl⟩, ?_, ?_, ?_⟩
  · intro db items h
    exact create_order_loop_nonneg items db h
  · intro db olds h
    exact restock_loop_nonneg olds db h
  · intro db olds items h
    exact update_items_loop_nonneg items olds db h

/-- Witness for C4 (amended): the caller-side guard at a concrete loop run. -/
theorem update_stock_unchecked_callers_guard_witness :
    NonNegStocks dbScenario3 ∧ NonNegStocks (create_order_loop dbScenario3 [⟨1, 4, 100⟩]).2 :=
  ⟨by decide, update_stock_unchecked_callers_guard.2.1 dbScenario3 [⟨1, 4, 100⟩] (by decide)⟩

/-- Claim C5 (code bug): reordering order 1 — items (P1,2),(P2,1), both fully
in stock — never creates the new order: `OrderSerializer.create` invokes
`OrderService.create_order(validated_data)` with a single argument while the
function's two parameters `validated_data` and `user` are both required, so
the delegation raises TypeError after the pre-check and nothing is
persisted. -/
theorem reorder_missing_user_argument :
    call_binds create_order_required_params orderSerializer_create_arg_count = false ∧
    OrderService.reorder_order dbScenario5 ⟨1, 7, 0⟩ 8 0 .ok =
      (.error .typeError, dbScenario5) := by
  decide

/-- Claim C6: the `quantity >= 0` stock invariant holds after every completed
`create_order`, `update_order` and `reorder_order` call (sequential
execution): starting from a non-negative stock table, the committed state of
each operation is again non-negative, whether the call succeeded or rolled
back. -/
theorem stock_nonneg_invariant (db : DB) (u d ru rd : Nat) (items : List ItemData)
    (inst orig : OrderRow) (upd : UpdData) (n : NotifyOutcome)
    (hdb : NonNegStocks db) :
    NonNegStocks (OrderService.create_order db u d items n).2 ∧
    NonNegStocks (OrderService.update_order db inst upd n).2 ∧
    NonNegStocks (OrderService.reorder_order db orig ru rd n).2 := by
  refine ⟨?_, ?_, ?_⟩
  · rw [create_order_fk]
    exact hdb
  · rw [update_order_eval]
    have h2 := update_order_body_nonneg db inst upd n hdb
    rcases hb : OrderService.update_order_body db inst upd n with ⟨res, db2⟩
    rw [hb] at h2
    cases res with
    | error e => exact hdb
    | ok o => exact h2
  · rw [reorder_order_eval]
    rcases hp : reorder_precheck db (db.orderItems.filter (fun i => i.order == orig.id))
      with e | its
    · exact hdb
    · exact hdb

/-- Witness for C6: the invariant instantiated at concrete runs of the three
operations. -/
theorem stock_nonneg_invariant_witness :
    NonNegStocks dbScenario1 ∧
    (NonNegStocks (OrderService.create_order dbScenario1 7 0 [⟨1, 4, 100⟩] .ok).2 ∧
      NonNegStocks (OrderService.update_order dbScenario1 ⟨1, 7, 0⟩
        ⟨none, none, some [⟨1, 3, 100⟩]⟩ .ok).2 ∧
      NonNegStocks (OrderService.reorder_order dbScenario1 ⟨1, 7, 0⟩ 8 0 .ok).2) :=
  ⟨by decide, stock_nonneg_invariant dbScenario1 7 0 8 0 [⟨1, 4, 100⟩]
    ⟨1, 7, 0⟩ ⟨1, 7, 0⟩ ⟨none, none, some [⟨1, 3, 100⟩]⟩ .ok (by decide)⟩

/-- Claim C7 (counterexample): the claimed serialization mechanism does not
exist — the stock read of `get_stock_by_product` acquires no exclusive row
lock; repositories.py performs a plain `Stock.objects.get`, and no
`select_for_update` appears anywhere in the repository. -/
theorem stock_read_takes_no_lock : get_stock_acquires_row_lock = false := rfl

/-- Claim C7 (amended): no `create_order` call ever commits a reservation, so
the no-oversell bound holds vacuously, and nothing serializes through a row
lock because none is taken.  Every `create_order` attempt raises the
FK-assignment `ValueError` while constructing the header — before reading any
stock row and before any write — so it leaves the database untouched; hence
any sequence of `create_order` attempts (and, since each touches nothing, any
concurrent interleaving of them) leaves the committed database and every
stock quantity unchanged: the total of committed reservations is zero, never
above the initial stock. -/
theorem no_oversell_vacuous :
    get_stock_acquires_row_lock = false ∧
    (∀ (db : DB) (calls : List (Nat × Nat × List ItemData × NotifyOutcome)),
      run_creates db calls = db) ∧
    (∀ (db : DB) (calls : List (Nat × Nat × List ItemData × NotifyOutcome)) (p : Nat),
      stockQty (run_creates db calls) p = stockQty db p) := by
  have hrun : ∀ (calls : List (Nat × Nat × List ItemData × NotifyOutcome)) (db : DB),
      run_creates db calls = db := by
    intro calls
    induction calls with
    | nil => intro db; rfl
    | cons c rest ih =>
      intro db
      show run_creates (OrderService.create_order db c.1 c.2.1 c.2.2.1 c.2.2.2).2 rest = db
      rw [create_order_fk]
      exact ih db
  exact ⟨rfl, fun db calls => hrun calls db, fun db calls p => by rw [hrun calls db]⟩

/-- Claim C8: the restock (reversal) step of `update_order` never aborts the
update: on a well-formed stock table it always returns ok, skipping — as the
`except ObjectDoesNotExist: continue` branch does — every old item whose
Stock row is missing; concretely, updating order 1 (whose old item references
P1, a product with no Stock row) to the items [(P2,1)] completes
successfully with the replacement fully applied. -/
theorem restock_missing_stock_tolerated :
    (∀ (db : DB) (olds : List OrderItemRow), WFStocks db →
      (restock_loop db olds).1 = .ok ()) ∧
    (OrderService.update_order dbScenario8 ⟨1, 7, 0⟩
        ⟨none, none, some [⟨2, 1, 50⟩]⟩ .ok).1 = .ok ⟨1, 7, 0⟩ ∧
    (OrderService.update_order dbScenario8 ⟨1, 7, 0⟩
        ⟨none, none, some [⟨2, 1, 50⟩]⟩ .ok).2 =
      ⟨[⟨2, 4⟩], [⟨1, 7, 0⟩], [⟨1, 2, 1, 50⟩], 2⟩ := by
  refine ⟨?_, by decide, by decide⟩
  intro db olds hwf
  exact (restock_loop_ok olds db hwf).1

/-- Witness for C8: the restock loop at the concrete stockless old item. -/
theorem restock_missing_stock_tolerated_witness :
    WFStocks dbScenario8 ∧
    (restock_loop dbScenario8 [⟨1, 1, 2, 100⟩]).1 = .ok () :=
  ⟨by decide, restock_missing_stock_tolerated.1 dbScenario8 [⟨1, 1, 2, 100⟩] (by decide)⟩

/-- Claim C9 (counterexample): a notification-enqueue failure that is not a
CeleryError propagates out of `update_order` — its guard is
`except CeleryError`, not `except Exception` — so the header-only update of
order 1 fails with the notification exception and is rolled back, contrary to
the claim that enqueue failures never propagate. -/
theorem update_order_notify_propagates :
    OrderService.update_order dbScenario8 ⟨1, 7, 0⟩ ⟨some 9, none, none⟩ .otherError =
      (.error .notifyFailure, dbScenario8) := by
  decide

/-- Claim C9 (amended): `create_order` catches every notification failure
(`except Exception`), so its result never depends on the enqueue outcome;
`update_order` catches exactly `CeleryError`, so a CeleryError enqueue
failure leaves its result unchanged too, while any other enqueue failure of a
successful update propagates to the caller and rolls the update back. -/
theorem notify_catch_policy :
    (∀ (db : DB) (u d : Nat) (items : List ItemData) (n : NotifyOutcome),
      OrderService.create_order db u d items n =
        OrderService.create_order db u d items .ok) ∧
    (∀ (db : DB) (inst : OrderRow) (upd : UpdData),
      OrderService.update_order db inst upd .celeryError =
        OrderService.update_order db inst upd .ok) ∧
    (∀ (db db' : DB) (inst : OrderRow) (upd : UpdData) (o : OrderRow),
      OrderService.update_order_body db inst upd .ok = (.ok o, db') →
      OrderService.update_order db inst upd .otherError =
        (.error .notifyFailure, db)) := by
  refine ⟨?_, ?_, ?_⟩
  · intro db u d items n
    rw [create_order_eval db u d items n, create_order_eval db u d items .ok]
  · intro db inst upd
    have hb : OrderService.update_order_body db inst upd .celeryError =
        OrderService.update_order_body db inst upd .ok := by
      rw [update_order_body_notify db inst upd .celeryError]
      rcases hbb : OrderService.update_order_body db inst upd .ok with ⟨res, db'⟩
      cases res <;> rfl
    rw [update_order_eval db inst upd .celeryError, update_order_eval db inst upd .ok, hb]
  · intro db db' inst upd o h
    have hb : OrderService.update_order_body db inst upd .otherError =
        (.error .notifyFailure, db') := by
      rw [update_order_body_notify db inst upd .otherError, h]
      rfl
    rw [update_order_eval, hb]

/-- Witness for C9 (amended): the propagation clause at the concrete
header-only update. -/
theorem notify_catch_policy_witness :
    OrderService.update_order_body dbScenario8 ⟨1, 7, 0⟩ ⟨some 9, none, none⟩ .ok =
      (.ok ⟨1, 9, 0⟩, ⟨[⟨2, 5⟩], [⟨1, 9, 0⟩], [⟨1, 1, 2, 100⟩], 2⟩) ∧
    OrderService.update_order dbScenario8 ⟨1, 7, 0⟩ ⟨some 9, none, none⟩ .otherError =
      (.error .notifyFailure, dbScenario8) :=
  ⟨by decide, notify_catch_policy.2.2 dbScenario8
    ⟨[⟨2, 5⟩], [⟨1, 9, 0⟩], [⟨1, 1, 2, 100⟩], 2⟩ ⟨1, 7, 0⟩ ⟨some 9, none, none⟩
    ⟨1, 9, 0⟩ (by decide)⟩

/-- Claim C10: an explicitly supplied empty item list is falsy in Python
(`if items_data:`), so `update_order` with `items = []` behaves exactly like
the header-only update with `items = None`: identical result, the existing
OrderItem rows are retained and no stock quantity changes. -/
theorem update_order_empty_items_header_only (db : DB) (inst : OrderRow)
    (b : Option Nat) (d : Option Nat) (n : NotifyOutcome) :
    OrderService.update_order db inst ⟨b, d, some []⟩ n =
      OrderService.update_order db inst ⟨b, d, none⟩ n ∧
    (OrderService.update_order db inst ⟨b, d, some []⟩ n).2.orderItems = db.orderItems ∧
    (OrderService.update_order db inst ⟨b, d, some []⟩ n).2.stocks = db.stocks := by
  refine ⟨rfl, ?_, ?_⟩ <;> cases n <;> rfl
